import Mathlib

/-!
Shallow embedding of the rule evaluation engine of the
`nao-enche-rules-service` repository (`src/services/RulesService.js`).

Pure evaluator functions are translated into Lean functions; the relational
store is modelled as explicit state (`DB`), SQL statements by their effect on
that state; JavaScript exceptions are modelled with `Except Unit`; the host
regular-expression engine and URL parser are modelled on the literal fragment
the repository's rules use, as documented on each definition.
-/

set_option autoImplicit false

namespace RulesSvc

/-! ## JavaScript value layer -/

/-- A JSON scalar stored in a rule configuration object (the repository's
configurations use strings and numbers). -/
inductive JVal where
  | str (s : String)
  | num (n : Int)
  deriving Repr, DecidableEq

/-- JavaScript truthiness of a `JVal`: the empty string and `0` are falsy. -/
def JVal.truthy : JVal → Bool
  | .str s => !(s == "")
  | .num n => !(n == 0)

/-- String coercion of a `JVal`, as performed by the database driver when the
value is bound to a text column. -/
def JVal.toStr : JVal → String
  | .str s => s
  | .num n => toString n

/-- A JavaScript object restricted to scalar fields: an association list with
(at most) one entry per key, in insertion order. -/
abbrev Obj := List (String × JVal)

/-- Property lookup `o[k]`: first entry with the key, `none` when absent. -/
def objGet (o : Obj) (k : String) : Option JVal :=
  match o with
  | [] => none
  | (k2, v) :: rest => if k2 == k then some v else objGet rest k

/-- The spread merge `{...a, ...b}`: keys of `b` override keys of `a`. -/
def objMerge (a b : Obj) : Obj :=
  a.filter (fun p => (objGet b p.1).isNone) ++ b

/-- `x || d` on an optional JS value coerced to a string (`none` models the
absent property): the default wins when the property is absent or falsy. -/
def jsOrVal (o : Option JVal) (d : String) : String :=
  match o with
  | some v => if v.truthy then v.toStr else d
  | none => d

/-- `x || d` on an optional numeric JS value (the modelled fragment covers
numeric priorities; a numeric string is read as its integer value). -/
def jsOrNumVal (o : Option JVal) (d : Int) : Int :=
  match o with
  | some (.num n) => if n == 0 then d else n
  | some (.str s) => if s == "" then d else (s.toInt?).getD d
  | none => d

/-- `x || d` on an optional integer (`undefined` and `0` are falsy). -/
def jsOrNum (o : Option Int) (d : Int) : Int :=
  match o with
  | some n => if n == 0 then d else n
  | none => d

/-- Decidable equality of `Except` values, so that concrete evaluations can
be checked by `decide`. -/
instance {ε α : Type} [DecidableEq ε] [DecidableEq α] : DecidableEq (Except ε α) := fun a b =>
  match a, b with
  | .ok x, .ok y =>
    if h : x = y then isTrue (by rw [h]) else isFalse (by simp [h])
  | .error x, .error y =>
    if h : x = y then isTrue (by rw [h]) else isFalse (by simp [h])
  | .ok _, .error _ => isFalse (by simp)
  | .error _, .ok _ => isFalse (by simp)

/-! ## Host string primitives (modelled) -/

/-- ASCII lower-casing of one character, the fragment of
`String.prototype.toLowerCase` the repository's keywords use. -/
def lcChar (c : Char) : Char :=
  if 65 ≤ c.toNat ∧ c.toNat ≤ 90 then Char.ofNat (c.toNat + 32) else c

/-- ASCII lower-casing of a string (`s.toLowerCase()`). -/
def lcStr (s : String) : String := String.mk (s.data.map lcChar)

/-- Substring test on character lists: does `needle` occur in `hay`? -/
def subList (needle : List Char) : List Char → Bool
  | [] => needle.isEmpty
  | c :: rest => needle.isPrefixOf (c :: rest) || subList needle rest

/-- `hay.includes(needle)`: substring containment, true on the empty needle. -/
def strIncl (hay needle : String) : Bool := subList needle.data hay.data

/-- Parenthesis balance check with the current nesting depth as accumulator. -/
def parenOk : Nat → List Char → Bool
  | 0, [] => true
  | _ + 1, [] => false
  | d, c :: rest =>
    if c = '(' then parenOk (d + 1) rest
    else if c = ')' then
      match d with
      | 0 => false
      | d2 + 1 => parenOk d2 rest
    else parenOk d rest

/-- Model of the host regular-expression compiler (`new RegExp p`) on the
pattern fragment this repository uses: compilation succeeds exactly when the
parentheses of the pattern are balanced.  In particular a lone `(` — the
malformed-keyword case — makes the constructor throw a `SyntaxError`. -/
def jsRegexOk (p : String) : Bool := parenOk 0 p.data

/-- Model of the host regular-expression matcher restricted to literal
patterns (every pattern the repository's configurations carry is literal):
`text.match p` is non-null exactly when `p` occurs in `text`. -/
def regexTest (p text : String) : Bool := strIncl text p

/-- Non-overlapping, leftmost-first occurrence count of `kw` in a text,
with explicit fuel (one unit per scanned position, so the text length is
enough) to keep the recursion structural. -/
def countOccFuel (kw : List Char) : Nat → List Char → Nat
  | 0, _ => 0
  | _, [] => 0
  | fuel + 1, c :: rest =>
    if kw.isPrefixOf (c :: rest) then
      1 + countOccFuel kw fuel (rest.drop (kw.length - 1))
    else countOccFuel kw fuel rest

/-- Non-overlapping, leftmost-first occurrence count of `kw` in a text. -/
def countOccAux (kw t : List Char) : Nat := countOccFuel kw t.length t

/-- Model of `text.match(new RegExp kw, "g").length` for a literal pattern:
the number of non-overlapping occurrences; the empty pattern matches at every
position, giving `length + 1`. -/
def countMatches (kw text : String) : Nat :=
  if kw = "" then text.length + 1 else countOccAux kw.data text.data

/-! ## Messages and evaluation results -/

/-- An inbound message; only the two text-bearing fields feed evaluation. -/
structure Message where
  text : Option String := none
  content : Option String := none
  deriving Repr, DecidableEq

/-- `message.text || message.content || ""` with JS falsiness of the empty
string. -/
def Message.getText (m : Message) : String :=
  match m.text with
  | some t => if t == "" then (match m.content with | some c => c | none => "") else t
  | none => match m.content with | some c => c | none => ""

/-- The per-rule evaluation outcome `{action, reason, matched}`. -/
structure EvalResult where
  action : String
  reason : String
  matched : Bool
  deriving Repr, DecidableEq

/-- One entry of a content filter list (`{type, pattern, name, max_length}`). -/
structure ContentFilter where
  type : String
  pattern : String := ""
  name : String := ""
  max_length : Nat := 0
  deriving Repr, DecidableEq

/-- The untyped `rule_config` object as the evaluators read it: every field
optional, `none` modelling an absent property. -/
structure RuleConfig where
  keywords : Option (List String) := none
  max_occurrences : Option Nat := none
  action : Option String := none
  domains : Option (List String) := none
  patterns : Option (List String) := none
  filters : Option (List ContentFilter) := none
  deriving Repr, DecidableEq

/-- A rule as the evaluation path consumes it. -/
structure Rule where
  id : String
  rule_name : String
  rule_type : String
  rule_config : RuleConfig
  deriving Repr, DecidableEq

/-! ## evaluateKeywordFilter -/

/-- The keyword loop of `evaluateKeywordFilter`: for each keyword in order,
compile `new RegExp (kw.toLowerCase()) "gi"` (throwing on a malformed
keyword), count its case-insensitive matches in the text, and accumulate the
total count and the list of keywords that matched at least once. -/
def keywordScan (text : String) : List String → Except Unit (Nat × List String)
  | [] => .ok (0, [])
  | kw :: rest =>
    if jsRegexOk (lcStr kw) then
      match keywordScan text rest with
      | .ok (c, ms) =>
        let n := countMatches (lcStr kw) (lcStr text)
        .ok (n + c, if n > 0 then kw :: ms else ms)
      | .error e => .error e
    else .error ()

/-- `evaluateKeywordFilter(config, message)` (RulesService.js:472-496);
`.error` models a thrown exception (iterating an absent `keywords` property,
or a malformed keyword regex). -/
def evaluateKeywordFilter (config : RuleConfig) (message : Message) :
    Except Unit EvalResult :=
  match config.keywords with
  | none => .error ()
  | some keywords =>
    let maxOcc := config.max_occurrences.getD 1
    let act := config.action.getD "block"
    let text := message.getText
    match keywordScan text keywords with
    | .error e => .error e
    | .ok (matchCount, matchedKeywords) =>
      let matched := decide (matchCount ≥ maxOcc)
      .ok { action := if matched then act else "allow"
            reason := if matched then
                "Matched " ++ toString matchCount ++ " keywords: " ++
                  String.intercalate ", " matchedKeywords
              else "No keyword matches"
            matched := matched }

/-! ## extractUrls / extractDomain / evaluateUrlFilter -/

/-- Maximal run of non-whitespace characters at the front of the list. -/
def takeNonSpace : List Char → List Char
  | [] => []
  | c :: rest => if c.isWhitespace then [] else c :: takeNonSpace rest

/-- Scanner behind `extractUrls` (`text.match(/(https?:\/\/[^\s]+)/g)`): at
each position try the scheme prefix (`https://` before `http://`), take the
maximal non-empty run of non-whitespace characters after it, and resume after
the match; on failure advance one character. -/
def extractUrlsFuel : Nat → List Char → List String
  | 0, _ => []
  | _, [] => []
  | fuel + 1, c :: rest =>
    if ("https://".data).isPrefixOf (c :: rest) then
      let tail := (c :: rest).drop 8
      let body := takeNonSpace tail
      if body.isEmpty then extractUrlsFuel fuel rest
      else String.mk ("https://".data ++ body) :: extractUrlsFuel fuel (tail.drop body.length)
    else if ("http://".data).isPrefixOf (c :: rest) then
      let tail := (c :: rest).drop 7
      let body := takeNonSpace tail
      if body.isEmpty then extractUrlsFuel fuel rest
      else String.mk ("http://".data ++ body) :: extractUrlsFuel fuel (tail.drop body.length)
    else extractUrlsFuel fuel rest

/-- `extractUrls(text)` (RulesService.js:545-548); every scanner step
consumes at least one character, so the text length is enough fuel. -/
def extractUrls (text : String) : List String := extractUrlsFuel text.data.length text.data

/-- Does this character end the host part of a URL? -/
def hostEnd (c : Char) : Bool := c == '/' || c == '?' || c == '#' || c == ':'

/-- `extractDomain(url)` (RulesService.js:550-557): `new URL(url).hostname`
with the raw string returned when the constructor throws.  The host URL
parser is modelled on the fragment the extracted URLs inhabit: an
`http(s)://` prefix followed by a host, the hostname being the characters up
to the first `/`, `?`, `#` or `:`, lower-cased; an unparsable URL (no such
prefix, or an empty host) yields the raw string. -/
def extractDomain (url : String) : String :=
  if ("https://".data).isPrefixOf url.data then
    let host := (url.data.drop 8).takeWhile (fun c => !hostEnd c)
    if host.isEmpty then url else String.mk (host.map lcChar)
  else if ("http://".data).isPrefixOf url.data then
    let host := (url.data.drop 7).takeWhile (fun c => !hostEnd c)
    if host.isEmpty then url else String.mk (host.map lcChar)
  else url

/-- Inner pattern loop of `evaluateUrlFilter`: first pattern that matches the
raw URL decides; a malformed pattern throws. -/
def patternScan (act url : String) : List String → Except Unit (Option EvalResult)
  | [] => .ok none
  | p :: rest =>
    if jsRegexOk p then
      if regexTest p url then
        .ok (some { action := act, reason := "URL matched pattern: " ++ p, matched := true })
      else patternScan act url rest
    else .error ()

/-- Outer URL loop of `evaluateUrlFilter`: for each URL in order, a
configured non-empty `domains` list whose entry occurs in the URL's host
returns `allow`/not-matched immediately; otherwise a configured non-empty
`patterns` list is scanned; `none` means the loop fell through. -/
def urlScan (domains patterns : Option (List String)) (act : String) :
    List String → Except Unit (Option EvalResult)
  | [] => .ok none
  | url :: rest =>
    let domainHit :=
      match domains with
      | some ds => ds.length > 0 && ds.any (fun d => strIncl (extractDomain url) d)
      | none => false
    if domainHit then
      .ok (some { action := "allow", reason := "Domain allowed: " ++ extractDomain url,
                  matched := false })
    else
      let pats :=
        match patterns with
        | some ps => if ps.length > 0 then ps else []
        | none => []
      match patternScan act url pats with
      | .error e => .error e
      | .ok (some r) => .ok (some r)
      | .ok none => urlScan domains patterns act rest

/-- One iteration of the URL loop of `evaluateUrlFilter` for the current
URL: the domain-allow check, then (when nothing was decided) the pattern
scan; `.ok none` means this URL decided nothing and the loop moves on to the
next URL. -/
def urlStep (domains patterns : Option (List String)) (act url : String) :
    Except Unit (Option EvalResult) :=
  let domainHit :=
    match domains with
    | some ds => ds.length > 0 && ds.any (fun d => strIncl (extractDomain url) d)
    | none => false
  if domainHit then
    .ok (some { action := "allow", reason := "Domain allowed: " ++ extractDomain url,
                matched := false })
  else
    let pats :=
      match patterns with
      | some ps => if ps.length > 0 then ps else []
      | none => []
    patternScan act url pats

/-- `evaluateUrlFilter(config, message)` (RulesService.js:498-526). -/
def evaluateUrlFilter (config : RuleConfig) (message : Message) :
    Except Unit EvalResult :=
  let act := config.action.getD "block"
  let urls := extractUrls message.getText
  if urls.isEmpty then
    .ok { action := "allow", reason := "No URLs found", matched := false }
  else
    match urlScan config.domains config.patterns act urls with
    | .error e => .error e
    | .ok (some r) => .ok r
    | .ok none =>
      .ok { action := "allow", reason := "No URL restrictions matched", matched := false }

/-! ## evaluateContentFilter -/

/-- Filter loop of `evaluateContentFilter`: a `regex` filter matching the
text, or a `length` filter exceeded by the text length, decides with the
configured action; a malformed regex filter throws. -/
def filterScan (act text : String) : List ContentFilter → Except Unit (Option EvalResult)
  | [] => .ok none
  | f :: rest =>
    if f.type == "regex" then
      if jsRegexOk f.pattern then
        if regexTest f.pattern text then
          .ok (some { action := act, reason := "Content matched filter: " ++ f.name,
                      matched := true })
        else filterScan act text rest
      else .error ()
    else if f.type == "length" && text.length > f.max_length then
      .ok (some { action := act
                  reason := "Content too long: " ++ toString text.length ++ " > " ++
                    toString f.max_length
                  matched := true })
    else filterScan act text rest

/-- `evaluateContentFilter(config, message)` (RulesService.js:528-543). -/
def evaluateContentFilter (config : RuleConfig) (message : Message) :
    Except Unit EvalResult :=
  match config.filters with
  | none => .error ()
  | some filters =>
    let act := config.action.getD "block"
    let text := message.getText
    match filterScan act text filters with
    | .error e => .error e
    | .ok (some r) => .ok r
    | .ok none =>
      .ok { action := "allow", reason := "No content filters matched", matched := false }

/-! ## evaluateRule / evaluateRules -/

/-- Body of `evaluateRule` before its catch-all (the switch of
RulesService.js:452-464). -/
def evaluateRuleBody (rule : Rule) (message : Message) : Except Unit EvalResult :=
  if rule.rule_type == "keyword_filter" then evaluateKeywordFilter rule.rule_config message
  else if rule.rule_type == "url_filter" then evaluateUrlFilter rule.rule_config message
  else if rule.rule_type == "content_filter" then evaluateContentFilter rule.rule_config message
  else .ok { action := "allow", reason := "Unknown rule type", matched := false }

/-- The catch-all fallback of `evaluateRule`. -/
def evalErrorResult : EvalResult :=
  { action := "allow", reason := "Evaluation error", matched := false }

/-- `evaluateRule(rule, message)` (RulesService.js:448-470): the switch with
every internal fault caught and mapped to the safe fallback. -/
def evaluateRule (rule : Rule) (message : Message) : EvalResult :=
  match evaluateRuleBody rule message with
  | .ok r => r
  | .error _ => evalErrorResult

/-- One entry of `rule_evaluations`. -/
structure RuleEvaluation where
  rule_id : String
  rule_name : String
  rule_type : String
  action : String
  reason : String
  matched : Bool
  deriving Repr, DecidableEq

/-- The aggregated report of `evaluateRules`. -/
structure EvaluationReport where
  final_action : String
  rule_evaluations : List RuleEvaluation
  blocking_rules : List RuleEvaluation
  deriving Repr, DecidableEq

/-- The per-rule record pushed into `results` by `evaluateRules`. -/
def ruleEvaluationOf (message : Message) (rule : Rule) : RuleEvaluation :=
  let ev := evaluateRule rule message
  { rule_id := rule.id, rule_name := rule.rule_name, rule_type := rule.rule_type,
    action := ev.action, reason := ev.reason, matched := ev.matched }

/-- `evaluateRules(message, userId)` (RulesService.js:400-446) applied to the
list of active rules fetched for the user: evaluate every rule in order,
filter the blocking subset, aggregate the final action. -/
def evaluateRules (rules : List Rule) (message : Message) : EvaluationReport :=
  let results := rules.map (ruleEvaluationOf message)
  let blockingRules := results.filter (fun r => r.action == "block" && r.matched)
  { final_action := if blockingRules.length > 0 then "block" else "allow"
    rule_evaluations := results
    blocking_rules := blockingRules }

/-! ## Relational store model

The external PostgreSQL store is modelled as explicit state: the
`privacy_rules` table and the `rule_audit_log` table.  Each SQL statement of
RulesService.js is translated by its effect on that state; generated inputs
(UUIDs, `NOW()`) are passed as explicit arguments.  Row defaults follow the
data model of the specification (is_active defaults to true; updated_by is
null until the first update) since the schema file is not part of the core
sources. -/

/-- A row of `privacy_rules`. -/
structure RuleRow where
  id : String
  user_id : String
  rule_type : String
  rule_name : String
  rule_description : String
  rule_config : Obj
  priority : Int
  is_active : Bool
  created_at : Nat
  updated_at : Nat
  created_by : String
  updated_by : Option String
  deriving Repr, DecidableEq

/-- A row of `rule_audit_log` (the `changes` snapshot is kept opaque). -/
structure AuditEntry where
  rule_id : String
  action : String
  user_id : String
  changes : String
  ip_address : Option String
  user_agent : Option String
  deriving Repr, DecidableEq

/-- The store state the mutation paths touch. -/
structure DB where
  rules : List RuleRow
  audit : List AuditEntry
  deriving Repr, DecidableEq

/-- `logAudit` (RulesService.js:347-362): insert an audit row; a persistence
failure (`auditFails`) is caught and only logged, leaving the state as it
was and never propagating to the caller. -/
def logAudit (db : DB) (e : AuditEntry) (auditFails : Bool) : DB :=
  if auditFails then db else { db with audit := db.audit ++ [e] }

/-- The request payload of a rule creation. -/
structure RuleData where
  rule_type : String
  rule_name : String
  rule_description : String
  rule_config : Obj
  priority : Option Int
  deriving Repr, DecidableEq

/-- `createRule(ruleData, userId, ip, userAgent)` (RulesService.js:22-48):
insert the new row (priority `priority || 1`), write the CREATE audit entry,
return the stored row. -/
def createRule (db : DB) (ruleData : RuleData) (userId ruleId : String) (now : Nat)
    (ip userAgent : Option String) (auditFails : Bool) : Except String RuleRow × DB :=
  let row : RuleRow :=
    { id := ruleId, user_id := userId
      rule_type := ruleData.rule_type, rule_name := ruleData.rule_name
      rule_description := ruleData.rule_description, rule_config := ruleData.rule_config
      priority := jsOrNum ruleData.priority 1
      is_active := true, created_at := now, updated_at := now
      created_by := userId, updated_by := none }
  let db1 : DB := { db with rules := db.rules ++ [row] }
  let db2 := logAudit db1
    { rule_id := ruleId, action := "CREATE", user_id := userId, changes := "rule_data"
      ip_address := ip, user_agent := userAgent } auditFails
  (.ok row, db2)

/-- The partial-update payload of `updateRule`; `none` models a field absent
from the request (bound as SQL `NULL`, so `COALESCE` keeps the old value). -/
structure RuleUpdates where
  rule_name : Option String := none
  rule_description : Option String := none
  rule_config : Option Obj := none
  priority : Option Int := none
  is_active : Option Bool := none
  deriving Repr, DecidableEq

/-- The `WHERE id = $7 AND user_id = $8` row filter. -/
def rowMatches (ruleId userId : String) (r : RuleRow) : Bool :=
  r.id == ruleId && r.user_id == userId

/-- The `SET` clause of `updateRule`: `COALESCE` on each updatable column,
`updated_at = NOW()`, `updated_by = $6`. -/
def applyRuleUpdate (u : RuleUpdates) (userId : String) (now : Nat) (r : RuleRow) : RuleRow :=
  { r with
    rule_name := u.rule_name.getD r.rule_name
    rule_description := u.rule_description.getD r.rule_description
    rule_config := u.rule_config.getD r.rule_config
    priority := u.priority.getD r.priority
    is_active := u.is_active.getD r.is_active
    updated_at := now
    updated_by := some userId }

/-- `updateRule(ruleId, updates, userId, ip, userAgent)`
(RulesService.js:104-141): update the rows matching id and owner, throw
`Rule not found or access denied` when none matched (leaving the store
untouched), otherwise write the UPDATE audit entry and return the first
updated row. -/
def updateRule (db : DB) (ruleId : String) (u : RuleUpdates) (userId : String) (now : Nat)
    (ip userAgent : Option String) (auditFails : Bool) : Except String RuleRow × DB :=
  match db.rules.filter (fun r => rowMatches ruleId userId r) with
  | [] => (.error "Rule not found or access denied", db)
  | r :: _ =>
    let newRules := db.rules.map
      (fun row => if rowMatches ruleId userId row then applyRuleUpdate u userId now row else row)
    let db1 : DB := { db with rules := newRules }
    let db2 := logAudit db1
      { rule_id := ruleId, action := "UPDATE", user_id := userId, changes := "updates"
        ip_address := ip, user_agent := userAgent } auditFails
    (.ok (applyRuleUpdate u userId now r), db2)

/-- `deleteRule(ruleId, userId, ip, userAgent)` (RulesService.js:143-167):
delete the rows matching id and owner, throw when none matched, otherwise
write the DELETE audit entry and return the first deleted row. -/
def deleteRule (db : DB) (ruleId userId : String) (ip userAgent : Option String)
    (auditFails : Bool) : Except String RuleRow × DB :=
  match db.rules.filter (fun r => rowMatches ruleId userId r) with
  | [] => (.error "Rule not found or access denied", db)
  | r :: _ =>
    let db1 : DB := { db with rules := db.rules.filter (fun row => !rowMatches ruleId userId row) }
    let db2 := logAudit db1
      { rule_id := ruleId, action := "DELETE", user_id := userId, changes := "deleted_rule"
        ip_address := ip, user_agent := userAgent } auditFails
    (.ok r, db2)

/-! ## Rule templates -/

/-- A row of `rule_templates`. -/
structure Template where
  id : String
  template_name : String
  template_description : String
  template_category : String
  template_config : Obj
  is_public : Bool
  deriving Repr, DecidableEq

/-- The template lookup `SELECT * FROM rule_templates WHERE id = $1 AND
is_public = true` (first matching row). -/
def findTemplate (templates : List Template) (templateId : String) : Option Template :=
  (templates.filter (fun t => t.id == templateId && t.is_public)).head?

/-- The rule payload `createRuleFromTemplate` builds (RulesService.js:271-281):
config is the spread merge of the template config with the customizations;
`rule_type` is the template config's embedded type `|| "custom"`;
`rule_name`/`rule_description` are the customization value `||` the
template's; `priority` is the customization value `|| 1`. -/
def templateRuleData (template : Template) (customizations : Obj) : RuleData :=
  { rule_type := jsOrVal (objGet template.template_config "rule_type") "custom"
    rule_name := jsOrVal (objGet customizations "rule_name") template.template_name
    rule_description :=
      jsOrVal (objGet customizations "rule_description") template.template_description
    rule_config := objMerge template.template_config customizations
    priority := some (jsOrNumVal (objGet customizations "priority") 1) }

/-- `createRuleFromTemplate(templateId, userId, customizations)`
(RulesService.js:256-289): throw `Template not found` when no public
template matches, otherwise delegate to `createRule` with the built payload
(ip and user agent are not forwarded). -/
def createRuleFromTemplate (db : DB) (templates : List Template) (templateId userId : String)
    (customizations : Obj) (ruleId : String) (now : Nat) (auditFails : Bool) :
    Except String RuleRow × DB :=
  match findTemplate templates templateId with
  | none => (.error "Template not found", db)
  | some template =>
    createRule db (templateRuleData template customizations) userId ruleId now
      none none auditFails

/-! ## validateRule -/

/-- The shape of an untyped field that the validator array-checks: absent or
otherwise falsy, present but not an array, or an array of some length. -/
inductive JsArrField where
  | undef
  | notArr
  | arr (n : Nat)
  deriving Repr, DecidableEq

/-- Is `!field || !Array.isArray(field)` true? -/
def JsArrField.invalidArr : JsArrField → Bool
  | .undef => true
  | .notArr => true
  | .arr _ => false

/-- The fields of a candidate's `rule_config` that `validateRule` reads;
`domains`/`patterns` are recorded by their truthiness only. -/
structure CandidateConfig where
  keywords : JsArrField := .undef
  domains : Bool := false
  patterns : Bool := false
  filters : JsArrField := .undef
  deriving Repr, DecidableEq

/-- A validation candidate; `none` models an absent (or otherwise falsy)
field. -/
structure Candidate where
  rule_type : Option String := none
  rule_name : Option String := none
  rule_config : Option CandidateConfig := none
  deriving Repr, DecidableEq

/-- The result shape `{isValid, errors}`. -/
structure ValidationResult where
  isValid : Bool
  errors : List String
  deriving Repr, DecidableEq

/-- JS falsiness of an optional string field. -/
def jsStrFalsy (o : Option String) : Bool :=
  match o with
  | none => true
  | some s => s == ""

/-- Body of `validateRule` before its catch-all (RulesService.js:295-334):
the generic presence checks followed by the type-specific switch; reading a
field of an absent `rule_config` throws (`.error`). -/
def validateRuleBody (c : Candidate) : Except Unit (List String) :=
  let e1 : List String := if jsStrFalsy c.rule_type then ["Rule type is required"] else []
  let e2 := e1 ++ (if jsStrFalsy c.rule_name then ["Rule name is required"] else [])
  let e3 := e2 ++ (if c.rule_config.isNone then ["Rule configuration is required"] else [])
  if c.rule_type == some "keyword_filter" then
    match c.rule_config with
    | none => .error ()
    | some cfg =>
      .ok (e3 ++ (if cfg.keywords.invalidArr then
        ["Keywords array is required for keyword_filter rule type"] else []))
  else if c.rule_type == some "url_filter" then
    match c.rule_config with
    | none => .error ()
    | some cfg =>
      .ok (e3 ++ (if !cfg.domains && !cfg.patterns then
        ["Domains or patterns are required for url_filter rule type"] else []))
  else if c.rule_type == some "content_filter" then
    match c.rule_config with
    | none => .error ()
    | some cfg =>
      .ok (e3 ++ (if cfg.filters.invalidArr then
        ["Filters array is required for content_filter rule type"] else []))
  else .ok e3

/-- `validateRule(ruleConfig)` (RulesService.js:293-343): the body with any
internal fault caught and mapped to the fixed
`{isValid: false, errors: ["Validation error occurred"]}` result. -/
def validateRule (c : Candidate) : ValidationResult :=
  match validateRuleBody c with
  | .ok errors => { isValid := errors.isEmpty, errors := errors }
  | .error _ => { isValid := false, errors := ["Validation error occurred"] }

/-! ## Helper lemmas -/

/-- `logAudit` never touches the rules table. -/
theorem logAudit_rules (db : DB) (e : AuditEntry) (b : Bool) :
    (logAudit db e b).rules = db.rules := by
  cases b <;> simp [logAudit]

/-! ## C1 -/

/-- C1: `evaluateRules` runs the per-rule evaluator on every one of the
fetched active rules with no early exit, producing exactly one entry in
`rule_evaluations` per rule in list order; `blocking_rules` is exactly the
sub-list of evaluations with action `"block"` and matched true;
`final_action` is `"block"` iff that sub-list is non-empty — in particular a
matched evaluation with any other action (such as `"flag"`) never blocks,
and zero rules yield `"allow"` with both lists empty. -/
theorem C1_evaluateRules_aggregation (rules : List Rule) (message : Message) :
    (evaluateRules rules message).rule_evaluations = rules.map (ruleEvaluationOf message) ∧
    (evaluateRules rules message).rule_evaluations.length = rules.length ∧
    (evaluateRules rules message).blocking_rules
      = (evaluateRules rules message).rule_evaluations.filter
          (fun r => r.action == "block" && r.matched) ∧
    ((evaluateRules rules message).final_action
      = if (evaluateRules rules message).blocking_rules.isEmpty then "allow" else "block") ∧
    ((∀ e ∈ (evaluateRules rules message).rule_evaluations,
        ¬(e.action = "block" ∧ e.matched = true)) →
      (evaluateRules rules message).final_action = "allow") ∧
    (rules = [] →
      evaluateRules rules message
        = { final_action := "allow", rule_evaluations := [], blocking_rules := [] }) := by
  refine ⟨rfl, by simp [evaluateRules], rfl, ?_, ?_, ?_⟩
  · cases h : (rules.map (ruleEvaluationOf message)).filter
        (fun r => r.action == "block" && r.matched)
      <;> simp [evaluateRules, h]
  · intro h
    have hnil : (rules.map (ruleEvaluationOf message)).filter
        (fun r => r.action == "block" && r.matched) = [] := by
      rw [List.filter_eq_nil_iff]
      intro e he
      have := h e he
      simp only [Bool.and_eq_true, beq_iff_eq]
      intro hcontra
      exact this ⟨hcontra.1, hcontra.2⟩
    simp [evaluateRules, hnil]
  · intro h
    subst h
    rfl

/-- Witness for C1: a single matched `flag` rule produces a complete report
and a final action of `allow`. -/
theorem C1_evaluateRules_aggregation_witness :
    (evaluateRules
        [{ id := "r1", rule_name := "flag rule", rule_type := "keyword_filter",
           rule_config := { keywords := some ["spam"], action := some "flag" } }]
        { text := some "this is spam spam" }).final_action = "allow" := by
  have h := C1_evaluateRules_aggregation
    [{ id := "r1", rule_name := "flag rule", rule_type := "keyword_filter",
       rule_config := { keywords := some ["spam"], action := some "flag" } }]
    { text := some "this is spam spam" }
  exact h.2.2.2.2.1 (by decide)

/-! ## C2 -/

/-- The first pattern that matches the URL decides the pattern loop, given
that every earlier pattern compiles and does not match. -/
theorem patternScan_first (act url : String) (ps1 : List String) (p : String)
    (ps2 : List String)
    (h1 : ∀ q ∈ ps1, jsRegexOk q = true ∧ regexTest q url = false)
    (hok : jsRegexOk p = true) (hm : regexTest p url = true) :
    patternScan act url (ps1 ++ p :: ps2)
      = .ok (some { action := act, reason := "URL matched pattern: " ++ p, matched := true }) := by
  induction ps1 with
  | nil => simp [patternScan, hok, hm]
  | cons q qs ih =>
    have hq := h1 q (by simp)
    simp only [List.cons_append, patternScan, hq.1, hq.2, if_true, if_false]
    exact ih (fun r hr => h1 r (by simp [hr]))

/-- The URL loop processes its head exactly as one `urlStep` iteration and
recurses only when that iteration decides nothing. -/
theorem urlScan_cons (domains patterns : Option (List String)) (act url : String)
    (rest : List String) :
    urlScan domains patterns act (url :: rest)
      = match urlStep domains patterns act url with
        | .error e => .error e
        | .ok (some r) => .ok (some r)
        | .ok none => urlScan domains patterns act rest := by
  simp only [urlScan, urlStep]
  by_cases h : (match domains with
      | some ds => ds.length > 0 && ds.any (fun d => strIncl (extractDomain url) d)
      | none => false) = true
  · simp [h]
  · simp only [Bool.not_eq_true] at h
    simp only [h, Bool.false_eq_true, if_false]

/-- URLs on which `urlStep` decides nothing are skipped by the URL loop. -/
theorem urlScan_skip (domains patterns : Option (List String)) (act : String)
    (pre l : List String)
    (h : ∀ u ∈ pre, urlStep domains patterns act u = .ok none) :
    urlScan domains patterns act (pre ++ l) = urlScan domains patterns act l := by
  induction pre with
  | nil => rfl
  | cons u us ih =>
    have hu := h u (by simp)
    rw [List.cons_append, urlScan_cons, hu]
    exact ih (fun v hv => h v (by simp [hv]))

/-- C2: for a `url_filter` rule, no extracted URL yields `allow`/not-matched;
otherwise the extracted URLs are scanned in order (positions at which the
loop decided nothing are expressed by `urlStep _ = .ok none`) and, for the
current URL: a configured non-empty domains list one of whose entries occurs
in the URL's host returns `allow`/not-matched immediately, whatever the
remaining URLs or the patterns would say; otherwise — the domain check
having missed, whether or not a domains list is configured — the first
configured pattern that matches the raw URL returns the configured action
(default `"block"`) with matched true; and when every URL of the scan
decides nothing the result is `allow`/not-matched. -/
theorem C2_evaluateUrlFilter_spec (config : RuleConfig) (message : Message) :
    (extractUrls message.getText = [] →
      evaluateUrlFilter config message
        = .ok { action := "allow", reason := "No URLs found", matched := false }) ∧
    (∀ pre url rest ds, extractUrls message.getText = pre ++ url :: rest →
      (∀ u ∈ pre,
        urlStep config.domains config.patterns (config.action.getD "block") u = .ok none) →
      config.domains = some ds → ds ≠ [] →
      (∃ d ∈ ds, strIncl (extractDomain url) d = true) →
      evaluateUrlFilter config message
        = .ok { action := "allow", reason := "Domain allowed: " ++ extractDomain url,
                matched := false }) ∧
    (∀ pre url rest ps1 p ps2, extractUrls message.getText = pre ++ url :: rest →
      (∀ u ∈ pre,
        urlStep config.domains config.patterns (config.action.getD "block") u = .ok none) →
      (∀ ds, config.domains = some ds → ∀ d ∈ ds, strIncl (extractDomain url) d = false) →
      config.patterns = some (ps1 ++ p :: ps2) →
      (∀ q ∈ ps1, jsRegexOk q = true ∧ regexTest q url = false) →
      jsRegexOk p = true → regexTest p url = true →
      evaluateUrlFilter config message
        = .ok { action := config.action.getD "block",
                reason := "URL matched pattern: " ++ p, matched := true }) ∧
    (∀ url rest, extractUrls message.getText = url :: rest →
      (∀ u ∈ extractUrls message.getText,
        urlStep config.domains config.patterns (config.action.getD "block") u = .ok none) →
      evaluateUrlFilter config message
        = .ok { action := "allow", reason := "No URL restrictions matched",
                matched := false }) := by
  refine ⟨?_, ?_, ?_, ?_⟩
  · intro h
    simp [evaluateUrlFilter, h]
  · intro pre url rest ds hurls hpre hds hne hmem
    have hlen : ds.length > 0 := by
      cases ds with
      | nil => exact absurd rfl hne
      | cons a l => simp
    have hany : ds.any (fun d => strIncl (extractDomain url) d) = true := by
      rw [List.any_eq_true]
      obtain ⟨d, hd, hdin⟩ := hmem
      exact ⟨d, hd, hdin⟩
    have hstep : urlStep config.domains config.patterns (config.action.getD "block") url
        = .ok (some { action := "allow", reason := "Domain allowed: " ++ extractDomain url,
                      matched := false }) := by
      simp [urlStep, hds, hlen, hany]
    have hscan : urlScan config.domains config.patterns (config.action.getD "block")
        (pre ++ url :: rest)
        = .ok (some { action := "allow", reason := "Domain allowed: " ++ extractDomain url,
                      matched := false }) := by
      rw [urlScan_skip config.domains config.patterns (config.action.getD "block") pre
        (url :: rest) hpre, urlScan_cons, hstep]
    simp [evaluateUrlFilter, hurls, hscan]
  · intro pre url rest ps1 p ps2 hurls hpre hmiss hpat h1 hok hm
    have hdomf : (match config.domains with
        | some ds => ds.length > 0 && ds.any (fun d => strIncl (extractDomain url) d)
        | none => false) = false := by
      cases hd : config.domains with
      | none => rfl
      | some ds =>
        have hanyf : ds.any (fun d => strIncl (extractDomain url) d) = false := by
          rw [List.any_eq_false]
          intro d hdmem
          simp [hmiss ds hd d hdmem]
        simp [hanyf]
    have hlen : (ps1 ++ p :: ps2).length > 0 := by simp
    have hstep : urlStep config.domains config.patterns (config.action.getD "block") url
        = .ok (some { action := config.action.getD "block",
                      reason := "URL matched pattern: " ++ p, matched := true }) := by
      simp only [urlStep, hdomf, Bool.false_eq_true, if_false, hpat, hlen, if_true]
      exact patternScan_first (config.action.getD "block") url ps1 p ps2 h1 hok hm
    have hscan : urlScan config.domains config.patterns (config.action.getD "block")
        (pre ++ url :: rest)
        = .ok (some { action := config.action.getD "block",
                      reason := "URL matched pattern: " ++ p, matched := true }) := by
      rw [urlScan_skip config.domains config.patterns (config.action.getD "block") pre
        (url :: rest) hpre, urlScan_cons, hstep]
    simp [evaluateUrlFilter, hurls, hscan]
  · intro url rest hurls hall
    have hscan : urlScan config.domains config.patterns (config.action.getD "block")
        (url :: rest) = .ok none := by
      have h2 := urlScan_skip config.domains config.patterns (config.action.getD "block")
        (url :: rest) []
        (fun u hu => hall u (by rw [hurls]; exact hu))
      simpa using h2
    simp [evaluateUrlFilter, hurls, hscan]

/-- Witness for C2: the domain allow-list lets `https://trusted.com/x`
through with no patterns configured; after a domain miss the configured
pattern blocks the same scan; and a decision is still reached on the second
URL when the first one decides nothing. -/
theorem C2_evaluateUrlFilter_spec_witness :
    evaluateUrlFilter { domains := some ["trusted.com"] }
        { text := some "check https://trusted.com/x" }
      = .ok { action := "allow", reason := "Domain allowed: trusted.com", matched := false }
    ∧ evaluateUrlFilter { domains := some ["trusted.com"], patterns := some ["bit.ly"] }
        { text := some "see http://bit.ly/abc" }
      = .ok { action := "block", reason := "URL matched pattern: bit.ly", matched := true }
    ∧ evaluateUrlFilter { patterns := some ["bit.ly"] }
        { text := some "x http://nope http://bit.ly/abc" }
      = .ok { action := "block", reason := "URL matched pattern: bit.ly", matched := true } := by
  refine ⟨?_, ?_, ?_⟩
  · have h := (C2_evaluateUrlFilter_spec { domains := some ["trusted.com"] }
        { text := some "check https://trusted.com/x" }).2.1
      [] "https://trusted.com/x" [] ["trusted.com"] (by decide) (by simp) rfl (by decide)
      ⟨"trusted.com", by decide, by decide⟩
    have hdom : extractDomain "https://trusted.com/x" = "trusted.com" := by decide
    rw [hdom] at h
    exact h
  · have h := (C2_evaluateUrlFilter_spec
        { domains := some ["trusted.com"], patterns := some ["bit.ly"] }
        { text := some "see http://bit.ly/abc" }).2.2.1
      [] "http://bit.ly/abc" [] [] "bit.ly" [] (by decide) (by simp)
      (fun ds hds => by cases hds; decide) rfl (by simp) (by decide) (by decide)
    exact h
  · have h := (C2_evaluateUrlFilter_spec { patterns := some ["bit.ly"] }
        { text := some "x http://nope http://bit.ly/abc" }).2.2.1
      ["http://nope"] "http://bit.ly/abc" [] [] "bit.ly" [] (by decide) (by decide)
      (fun ds hds => by cases hds) rfl (by simp) (by decide) (by decide)
    exact h

/-! ## C3 -/

/-- When every keyword compiles, the keyword loop returns the sum of the
per-keyword case-insensitive match counts together with the keywords that
matched at least once, in order. -/
theorem keywordScan_ok (text : String) (kws : List String)
    (hv : ∀ kw ∈ kws, jsRegexOk (lcStr kw) = true) :
    keywordScan text kws
      = .ok ((kws.map (fun kw => countMatches (lcStr kw) (lcStr text))).sum,
             kws.filter (fun kw => countMatches (lcStr kw) (lcStr text) > 0)) := by
  induction kws with
  | nil => simp [keywordScan]
  | cons kw rest ih =>
    have hkw := hv kw (by simp)
    have hrest := ih (fun q hq => hv q (by simp [hq]))
    simp only [keywordScan, hkw, if_true, hrest, List.map_cons, List.sum_cons,
      List.filter_cons]
    by_cases hpos : countMatches (lcStr kw) (lcStr text) > 0
    · simp [hpos]
    · simp [hpos]

/-- C3: for a `keyword_filter` configuration whose keywords all compile, the
evaluator sums the case-insensitive occurrence counts of the keywords in the
message text, sets matched to (total ≥ max_occurrences, default 1), returns
the configured action (default `"block"`) when matched and `"allow"`
otherwise, with a reason listing the matched keywords and the count. -/
theorem C3_evaluateKeywordFilter_spec (config : RuleConfig) (message : Message)
    (kws : List String) (hk : config.keywords = some kws)
    (hv : ∀ kw ∈ kws, jsRegexOk (lcStr kw) = true) :
    evaluateKeywordFilter config message
      = .ok { action :=
                if (kws.map (fun kw => countMatches (lcStr kw) (lcStr message.getText))).sum
                    ≥ config.max_occurrences.getD 1
                then config.action.getD "block" else "allow"
              reason :=
                if (kws.map (fun kw => countMatches (lcStr kw) (lcStr message.getText))).sum
                    ≥ config.max_occurrences.getD 1
                then "Matched " ++
                    toString (kws.map
                      (fun kw => countMatches (lcStr kw) (lcStr message.getText))).sum ++
                    " keywords: " ++ String.intercalate ", "
                      (kws.filter
                        (fun kw => countMatches (lcStr kw) (lcStr message.getText) > 0))
                else "No keyword matches"
              matched :=
                decide ((kws.map
                    (fun kw => countMatches (lcStr kw) (lcStr message.getText))).sum
                  ≥ config.max_occurrences.getD 1) } := by
  have hscan := keywordScan_ok message.getText kws hv
  simp only [evaluateKeywordFilter, hk, hscan]
  by_cases hge : (kws.map (fun kw => countMatches (lcStr kw) (lcStr message.getText))).sum
      ≥ config.max_occurrences.getD 1
  · simp [hge]
  · simp [hge]

/-- Witness for C3: `{keywords: ["spam"], max_occurrences: 1, action:
"block"}` against `"this is spam spam"` matches with count 2 and blocks. -/
theorem C3_evaluateKeywordFilter_spec_witness :
    evaluateKeywordFilter
        { keywords := some ["spam"], max_occurrences := some 1, action := some "block" }
        { text := some "this is spam spam" }
      = .ok { action := "block", reason := "Matched 2 keywords: spam", matched := true }
    ∧ (["spam"].map (fun kw => countMatches (lcStr kw) (lcStr "this is spam spam"))).sum = 2 := by
  have h := C3_evaluateKeywordFilter_spec
    { keywords := some ["spam"], max_occurrences := some 1, action := some "block" }
    { text := some "this is spam spam" } ["spam"] rfl (by decide)
  constructor
  · rw [h]
    decide
  · decide

/-! ## C4 -/

/-- C4: `evaluateRule` never raises: a rule whose type is none of the three
known filter types returns `allow`/not-matched with the unknown-rule-type
reason, and whenever the body of a known type throws, the catch-all maps the
fault to `allow`/not-matched with the evaluation-error reason — the result
type itself is total, so a malformed rule cannot abort the pipeline. -/
theorem C4_evaluateRule_never_raises (rule : Rule) (message : Message) :
    (rule.rule_type ∉ (["keyword_filter", "url_filter", "content_filter"] : List String) →
      evaluateRule rule message
        = { action := "allow", reason := "Unknown rule type", matched := false }) ∧
    (∀ e, evaluateRuleBody rule message = .error e →
      evaluateRule rule message = evalErrorResult) := by
  constructor
  · intro h
    simp only [List.mem_cons, List.mem_singleton, List.not_mem_nil, or_false] at h
    push_neg at h
    obtain ⟨h1, h2, h3⟩ := h
    simp [evaluateRule, evaluateRuleBody, h1, h2, h3]
  · intro e he
    simp [evaluateRule, he]

/-- Witness for C4: an unknown rule type and a rule with a malformed keyword
regex both degrade to a safe `allow` result. -/
theorem C4_evaluateRule_never_raises_witness :
    evaluateRule
        { id := "r0", rule_name := "unknown", rule_type := "custom", rule_config := {} }
        { text := some "hello" }
      = { action := "allow", reason := "Unknown rule type", matched := false }
    ∧ evaluateRule
        { id := "r1", rule_name := "bad", rule_type := "keyword_filter",
          rule_config := { keywords := some ["("] } }
        { text := some "hello" }
      = evalErrorResult := by
  constructor
  · exact (C4_evaluateRule_never_raises
      { id := "r0", rule_name := "unknown", rule_type := "custom", rule_config := {} }
      { text := some "hello" }).1 (by decide)
  · exact (C4_evaluateRule_never_raises
      { id := "r1", rule_name := "bad", rule_type := "keyword_filter",
        rule_config := { keywords := some ["("] } }
      { text := some "hello" }).2 () (by decide)

/-! ## C9 -/

/-- The keyword loop throws as soon as any keyword of the list fails to
compile. -/
theorem keywordScan_error (text : String) (kws : List String)
    (h : ∃ kw ∈ kws, jsRegexOk (lcStr kw) = false) :
    keywordScan text kws = .error () := by
  induction kws with
  | nil => simp at h
  | cons kw rest ih =>
    by_cases hkw : jsRegexOk (lcStr kw) = true
    · have hrest : ∃ q ∈ rest, jsRegexOk (lcStr q) = false := by
        obtain ⟨q, hq, hbad⟩ := h
        rcases List.mem_cons.mp hq with rfl | hmem
        · rw [hkw] at hbad
          cases hbad
        · exact ⟨q, hmem, hbad⟩
      simp [keywordScan, hkw, ih hrest]
    · have hkw2 : jsRegexOk (lcStr kw) = false := by
        simpa using hkw
      simp [keywordScan, hkw2]

/-- C9: one malformed keyword silently disables the whole `keyword_filter`
rule: if any keyword of the rule fails to compile as a regular expression,
`evaluateRule` returns the error fallback `allow`/not-matched, even when
other keywords of the rule occur in the text. -/
theorem C9_malformed_keyword_disables_rule (rule : Rule) (message : Message)
    (kws : List String) (kw : String)
    (ht : rule.rule_type = "keyword_filter")
    (hk : rule.rule_config.keywords = some kws)
    (hmem : kw ∈ kws) (hbad : jsRegexOk (lcStr kw) = false) :
    evaluateRule rule message = evalErrorResult := by
  have hscan := keywordScan_error message.getText kws ⟨kw, hmem, hbad⟩
  simp [evaluateRule, evaluateRuleBody, ht, evaluateKeywordFilter, hk, hscan]

/-- Witness for C9: the rule `{keywords: ["spam", "("]}` yields the error
fallback although `spam` occurs in the text. -/
theorem C9_malformed_keyword_disables_rule_witness :
    evaluateRule
        { id := "r1", rule_name := "bad", rule_type := "keyword_filter",
          rule_config := { keywords := some ["spam", "("] } }
        { text := some "this is spam" }
      = evalErrorResult
    ∧ countMatches (lcStr "spam") (lcStr "this is spam") = 1 := by
  constructor
  · exact C9_malformed_keyword_disables_rule
      { id := "r1", rule_name := "bad", rule_type := "keyword_filter",
        rule_config := { keywords := some ["spam", "("] } }
      { text := some "this is spam" } ["spam", "("] "(" rfl rfl (by decide) (by decide)
  · decide

/-! ## C6 -/

/-- C6 counterexample: a `keyword_filter` candidate whose `keywords` field is
the empty array is accepted by `validateRule` (`[]` is a truthy array in
JavaScript, and the length is never checked), contradicting the claim that
an empty sequence yields `isValid = false`. -/
theorem C6_counterexample_empty_keywords :
    validateRule
        { rule_type := some "keyword_filter", rule_name := some "My rule",
          rule_config := some { keywords := .arr 0 } }
      = { isValid := true, errors := [] } := by decide

/-- C6 (amended): `validateRule` never throws (its catch-all returns a
result), and a `keyword_filter` candidate with a present `rule_config` whose
`keywords` field is absent (or otherwise falsy) or not an array yields
`isValid = false` with an error mentioning `keywords`; a `keywords` field
that is an array — even the empty array — never produces the keywords
error. -/
theorem C6_validateRule_keywords (c : Candidate) (cfg : CandidateConfig)
    (ht : c.rule_type = some "keyword_filter")
    (hc : c.rule_config = some cfg) :
    (cfg.keywords.invalidArr = true →
      (validateRule c).isValid = false ∧
      ∃ e ∈ (validateRule c).errors, strIncl (lcStr e) "keywords" = true) ∧
    (∀ n, cfg.keywords = .arr n →
      "Keywords array is required for keyword_filter rule type" ∉ (validateRule c).errors) := by
  constructor
  · intro hbad
    constructor
    · simp [validateRule, validateRuleBody, ht, hc, hbad]
    · refine ⟨"Keywords array is required for keyword_filter rule type", ?_, by decide⟩
      simp [validateRule, validateRuleBody, ht, hc, hbad]
  · intro n harr
    have hgood : cfg.keywords.invalidArr = false := by
      rw [harr]
      rfl
    simp only [validateRule, validateRuleBody, ht, hc]
    simp only [hgood]
    split_ifs <;> simp_all

/-- Witness for C6 (amended) at a candidate whose keywords field is absent. -/
theorem C6_validateRule_keywords_witness :
    (validateRule
        { rule_type := some "keyword_filter", rule_name := some "My rule",
          rule_config := some { keywords := .undef } }).isValid = false
    ∧ ∃ e ∈ (validateRule
        { rule_type := some "keyword_filter", rule_name := some "My rule",
          rule_config := some { keywords := .undef } }).errors,
        strIncl (lcStr e) "keywords" = true :=
  (C6_validateRule_keywords
    { rule_type := some "keyword_filter", rule_name := some "My rule",
      rule_config := some { keywords := .undef } }
    { keywords := .undef } rfl rfl).1 rfl

/-! ## C10 -/

/-- C10: a candidate with one of the three known rule types but no
`rule_config` makes the type-specific branch fault, and the catch-all
returns exactly `{isValid: false, errors: ["Validation error occurred"]}`,
discarding the already-collected generic errors such as the
missing-configuration error. -/
theorem C10_validateRule_absent_config (c : Candidate) (t : String)
    (ht : c.rule_type = some t)
    (hmem : t = "keyword_filter" ∨ t = "url_filter" ∨ t = "content_filter")
    (hc : c.rule_config = none) :
    validateRule c = { isValid := false, errors := ["Validation error occurred"] } := by
  rcases hmem with h | h | h <;>
    simp [validateRule, validateRuleBody, ht, h, hc]

/-- Witness for C10 at a `url_filter` candidate with no configuration. -/
theorem C10_validateRule_absent_config_witness :
    validateRule { rule_type := some "url_filter", rule_name := some "My rule",
                   rule_config := none }
      = { isValid := false, errors := ["Validation error occurred"] } :=
  C10_validateRule_absent_config
    { rule_type := some "url_filter", rule_name := some "My rule", rule_config := none }
    "url_filter" rfl (Or.inr (Or.inl rfl)) rfl

/-! ## C7 -/

/-- C7: `updateRule` changes only the fields explicitly present in the
partial update (COALESCE semantics) while `updated_at`/`updated_by` are
always refreshed; rows of other rules (and of other owners) survive
unchanged; and when no row matches both id and owner the operation fails
with the not-found-or-denied error and the store is left exactly as it
was. -/
theorem C7_updateRule_coalesce (db : DB) (ruleId userId : String) (u : RuleUpdates)
    (now : Nat) (ip ua : Option String) (auditFails : Bool) :
    (db.rules.filter (fun r => rowMatches ruleId userId r) = [] →
      updateRule db ruleId u userId now ip ua auditFails
        = (.error "Rule not found or access denied", db)) ∧
    (∀ r rest, db.rules.filter (fun r => rowMatches ruleId userId r) = r :: rest →
      (updateRule db ruleId u userId now ip ua auditFails).fst
        = .ok (applyRuleUpdate u userId now r)) ∧
    (∀ r : RuleRow,
      (applyRuleUpdate u userId now r).updated_at = now ∧
      (applyRuleUpdate u userId now r).updated_by = some userId ∧
      (u.rule_name = none → (applyRuleUpdate u userId now r).rule_name = r.rule_name) ∧
      (u.rule_description = none →
        (applyRuleUpdate u userId now r).rule_description = r.rule_description) ∧
      (u.rule_config = none → (applyRuleUpdate u userId now r).rule_config = r.rule_config) ∧
      (u.priority = none → (applyRuleUpdate u userId now r).priority = r.priority) ∧
      (u.is_active = none → (applyRuleUpdate u userId now r).is_active = r.is_active) ∧
      (∀ p, u.priority = some p → (applyRuleUpdate u userId now r).priority = p)) ∧
    (∀ row ∈ db.rules, rowMatches ruleId userId row = false →
      row ∈ (updateRule db ruleId u userId now ip ua auditFails).snd.rules) := by
  refine ⟨?_, ?_, ?_, ?_⟩
  · intro h
    simp [updateRule, h]
  · intro r rest h
    simp [updateRule, h]
  · intro r
    refine ⟨rfl, rfl, ?_, ?_, ?_, ?_, ?_, ?_⟩ <;>
      first
        | (intro h; simp [applyRuleUpdate, h])
        | (intro p h; simp [applyRuleUpdate, h])
  · intro row hrow hnm
    cases h : db.rules.filter (fun r => rowMatches ruleId userId r) with
    | nil =>
      simp only [updateRule, h]
      exact hrow
    | cons r rest =>
      simp only [updateRule, h, logAudit_rules]
      exact List.mem_map.mpr ⟨row, hrow, by simp [hnm]⟩

/-- Witness for C7: an update carrying only `{priority: 5}` leaves name,
description, config and active flag unchanged, refreshes `updated_at` and
`updated_by`, and the same update under a different owner fails leaving the
store untouched. -/
theorem C7_updateRule_coalesce_witness :
    (updateRule
        { rules := [{ id := "r1", user_id := "u1", rule_type := "keyword_filter",
                      rule_name := "N", rule_description := "Desc",
                      rule_config := [("action", JVal.str "block")], priority := 2,
                      is_active := true, created_at := 3, updated_at := 3,
                      created_by := "u1", updated_by := none }], audit := [] }
        "r1" { priority := some 5 } "u1" 9 none none false).fst
      = .ok { id := "r1", user_id := "u1", rule_type := "keyword_filter",
              rule_name := "N", rule_description := "Desc",
              rule_config := [("action", JVal.str "block")], priority := 5,
              is_active := true, created_at := 3, updated_at := 9,
              created_by := "u1", updated_by := some "u1" }
    ∧ updateRule
        { rules := [{ id := "r1", user_id := "u1", rule_type := "keyword_filter",
                      rule_name := "N", rule_description := "Desc",
                      rule_config := [("action", JVal.str "block")], priority := 2,
                      is_active := true, created_at := 3, updated_at := 3,
                      created_by := "u1", updated_by := none }], audit := [] }
        "r1" { priority := some 5 } "u2" 9 none none false
      = (.error "Rule not found or access denied",
         { rules := [{ id := "r1", user_id := "u1", rule_type := "keyword_filter",
                       rule_name := "N", rule_description := "Desc",
                       rule_config := [("action", JVal.str "block")], priority := 2,
                       is_active := true, created_at := 3, updated_at := 3,
                       created_by := "u1", updated_by := none }], audit := [] }) := by
  constructor
  · have h := (C7_updateRule_coalesce
      { rules := [{ id := "r1", user_id := "u1", rule_type := "keyword_filter",
                    rule_name := "N", rule_description := "Desc",
                    rule_config := [("action", JVal.str "block")], priority := 2,
                    is_active := true, created_at := 3, updated_at := 3,
                    created_by := "u1", updated_by := none }], audit := [] }
      "r1" "u1" { priority := some 5 } 9 none none false).2.1
      { id := "r1", user_id := "u1", rule_type := "keyword_filter",
        rule_name := "N", rule_description := "Desc",
        rule_config := [("action", JVal.str "block")], priority := 2,
        is_active := true, created_at := 3, updated_at := 3,
        created_by := "u1", updated_by := none } [] (by decide)
    rw [h]
    decide
  · exact (C7_updateRule_coalesce
      { rules := [{ id := "r1", user_id := "u1", rule_type := "keyword_filter",
                    rule_name := "N", rule_description := "Desc",
                    rule_config := [("action", JVal.str "block")], priority := 2,
                    is_active := true, created_at := 3, updated_at := 3,
                    created_by := "u1", updated_by := none }], audit := [] }
      "r1" "u2" { priority := some 5 } 9 none none false).1 (by decide)

/-! ## C8 -/

/-- C8: for each of the three rule mutations, a failing audit-log write is
swallowed inside the audit recorder: the mutation's returned value and the
rules table it produces are identical whether the audit insert succeeds or
fails. -/
theorem C8_audit_failure_isolated (db : DB) (ruleData : RuleData) (userId ruleId : String)
    (now : Nat) (ip ua : Option String) (u : RuleUpdates) :
    ((createRule db ruleData userId ruleId now ip ua true).fst
       = (createRule db ruleData userId ruleId now ip ua false).fst ∧
     (createRule db ruleData userId ruleId now ip ua true).snd.rules
       = (createRule db ruleData userId ruleId now ip ua false).snd.rules) ∧
    ((updateRule db ruleId u userId now ip ua true).fst
       = (updateRule db ruleId u userId now ip ua false).fst ∧
     (updateRule db ruleId u userId now ip ua true).snd.rules
       = (updateRule db ruleId u userId now ip ua false).snd.rules) ∧
    ((deleteRule db ruleId userId ip ua true).fst
       = (deleteRule db ruleId userId ip ua false).fst ∧
     (deleteRule db ruleId userId ip ua true).snd.rules
       = (deleteRule db ruleId userId ip ua false).snd.rules) := by
  refine ⟨⟨rfl, ?_⟩, ?_, ?_⟩
  · simp [createRule, logAudit_rules]
  · cases h : db.rules.filter (fun r => rowMatches ruleId userId r) with
    | nil => simp [updateRule, h]
    | cons r rest => simp [updateRule, h, logAudit_rules]
  · cases h : db.rules.filter (fun r => rowMatches ruleId userId r) with
    | nil => simp [deleteRule, h]
    | cons r rest => simp [deleteRule, h, logAudit_rules]

/-! ## C5 -/

/-- Lookup in the spread merge `{...a, ...b}`: a key present in `b` takes
`b`'s value, otherwise `a`'s. -/
theorem objGet_objMerge (a b : Obj) (k : String) :
    objGet (objMerge a b) k = (objGet b k).orElse (fun _ => objGet a k) := by
  induction a with
  | nil =>
    cases h : objGet b k <;> simp [objMerge, objGet, h, Option.orElse]
  | cons p rest ih =>
    by_cases hk : p.1 = k
    · subst hk
      cases hb : objGet b p.1 with
      | some v =>
        have : objMerge (p :: rest) b = objMerge rest b := by
          simp [objMerge, hb]
        rw [this, ih, hb]
        simp [Option.orElse]
      | none =>
        have : objMerge (p :: rest) b = p :: objMerge rest b := by
          simp [objMerge, hb]
        rw [this]
        simp [objGet, hb, Option.orElse]
    · have hbeq : (p.1 == k) = false := by
        simp [hk]
      by_cases hb : (objGet b p.1).isNone
      · have : objMerge (p :: rest) b = p :: objMerge rest b := by
          simp [objMerge, hb]
        rw [this]
        simp only [objGet, hbeq, if_false]
        rw [ih]
        cases h2 : objGet b k <;> simp [objGet, hbeq, Option.orElse]
      · have : objMerge (p :: rest) b = objMerge rest b := by
          simp only [objMerge, List.filter_cons]
          simp only [Bool.not_eq_true] at hb
          simp [hb]
        rw [this, ih]
        cases h2 : objGet b k <;> simp [objGet, hbeq, Option.orElse]

/-- C5 counterexample: the only priority the template carries — the entry
`priority: 7` of its config — is ignored for the created rule's priority
column, which defaults to 1 when the customizations carry none; moreover the
persisted `keyword_filter` config has no `keywords` and creation still
succeeds, so no validation runs on this delegation path. -/
theorem C5_counterexample_template_priority :
    ((createRuleFromTemplate { rules := [], audit := [] }
        [{ id := "t1", template_name := "T", template_description := "D",
           template_category := "cat",
           template_config := [("rule_type", JVal.str "keyword_filter"),
                               ("priority", JVal.num 7)],
           is_public := true }]
        "t1" "u1" [] "r1" 0 false).fst).map
      (fun row => (row.priority, row.rule_type, objGet row.rule_config "priority",
                   objGet row.rule_config "keywords"))
      = .ok (1, "keyword_filter", some (JVal.num 7), none) := by decide

/-- C5 (amended): `createRuleFromTemplate` fails with the template-not-found
error (leaving the store untouched) when no public template matches the id;
otherwise it delegates to the same `createRule` call as a direct rule
creation (persistence and audit; validation happens outside this path), with
a payload whose config is the shallow merge in which every key present in
the customizations overrides the template's config, whose `rule_type`
defaults to the template config's embedded truthy type or `"custom"`, whose
`rule_name`/`rule_description` take the customization value when present and
truthy and the template's otherwise, and whose priority takes the
customization value when present and non-zero and defaults to 1 otherwise
(the template contributes no priority). -/
theorem C5_createRuleFromTemplate_spec (db : DB) (templates : List Template)
    (templateId userId : String) (customizations : Obj) (ruleId : String) (now : Nat)
    (auditFails : Bool) :
    (findTemplate templates templateId = none →
      createRuleFromTemplate db templates templateId userId customizations ruleId now auditFails
        = (.error "Template not found", db)) ∧
    (∀ template, findTemplate templates templateId = some template →
      createRuleFromTemplate db templates templateId userId customizations ruleId now auditFails
        = createRule db (templateRuleData template customizations) userId ruleId now
            none none auditFails) ∧
    (∀ template : Template,
      (∀ k, objGet (templateRuleData template customizations).rule_config k
          = (objGet customizations k).orElse (fun _ => objGet template.template_config k)) ∧
      (objGet template.template_config "rule_type" = none →
        (templateRuleData template customizations).rule_type = "custom") ∧
      (∀ v, objGet template.template_config "rule_type" = some v → v.truthy = true →
        (templateRuleData template customizations).rule_type = v.toStr) ∧
      (objGet customizations "rule_name" = none →
        (templateRuleData template customizations).rule_name = template.template_name) ∧
      (∀ v, objGet customizations "rule_name" = some v → v.truthy = true →
        (templateRuleData template customizations).rule_name = v.toStr) ∧
      (objGet customizations "rule_description" = none →
        (templateRuleData template customizations).rule_description
          = template.template_description) ∧
      (∀ v, objGet customizations "rule_description" = some v → v.truthy = true →
        (templateRuleData template customizations).rule_description = v.toStr) ∧
      (objGet customizations "priority" = none →
        (templateRuleData template customizations).priority = some 1) ∧
      (∀ n : Int, objGet customizations "priority" = some (.num n) → n ≠ 0 →
        (templateRuleData template customizations).priority = some n)) := by
  refine ⟨?_, ?_, ?_⟩
  · intro h
    simp [createRuleFromTemplate, h]
  · intro template h
    simp [createRuleFromTemplate, h]
  · intro template
    refine ⟨fun k => objGet_objMerge template.template_config customizations k,
      ?_, ?_, ?_, ?_, ?_, ?_, ?_, ?_⟩
    · intro h
      simp [templateRuleData, jsOrVal, h]
    · intro v h htr
      simp [templateRuleData, jsOrVal, h, htr]
    · intro h
      simp [templateRuleData, jsOrVal, h]
    · intro v h htr
      simp [templateRuleData, jsOrVal, h, htr]
    · intro h
      simp [templateRuleData, jsOrVal, h]
    · intro v h htr
      simp [templateRuleData, jsOrVal, h, htr]
    · intro h
      simp [templateRuleData, jsOrNumVal, h]
    · intro n h hn
      simp [templateRuleData, jsOrNumVal, h, hn]

/-- Witness for C5 (amended): the template config `{action: "allow"}` merged
with the customization `{action: "block"}` carries `action: "block"`, and an
unknown template id fails with the template-not-found error. -/
theorem C5_createRuleFromTemplate_spec_witness :
    objGet (templateRuleData
        { id := "t1", template_name := "T", template_description := "D",
          template_category := "cat", template_config := [("action", JVal.str "allow")],
          is_public := true }
        [("action", JVal.str "block")]).rule_config "action"
      = some (JVal.str "block")
    ∧ createRuleFromTemplate { rules := [], audit := [] } [] "missing" "u1" [] "r1" 0 false
      = (.error "Template not found", { rules := [], audit := [] }) := by
  constructor
  · have h := ((C5_createRuleFromTemplate_spec { rules := [], audit := [] } []
      "missing" "u1" [("action", JVal.str "block")] "r1" 0 false).2.2
      { id := "t1", template_name := "T", template_description := "D",
        template_category := "cat", template_config := [("action", JVal.str "allow")],
        is_public := true }).1 "action"
    rw [h]
    decide
  · exact (C5_createRuleFromTemplate_spec { rules := [], audit := [] } []
      "missing" "u1" [] "r1" 0 false).1 (by decide)

end RulesSvc
